import Mathlib

/-!
Shallow embedding of the AI-Assistant real-time call orchestrator.

Source files embedded here:
- `src/services/realtime.js`  (RealtimeService: OpenAI-side sessions)
- `src/services/twilio.js`    (TwilioService: transport-side streams)
- `index.js`                  (relay coordinator: Twilio WebSocket handler,
                               realtime event listeners, Telegram summary)
- `src/services/functionHandler.js` and `src/services/tools.js`
                              (tool schemas and tool execution)

JavaScript `Map` objects are modeled as association lists with
`Map.set`-style replace-or-append semantics.  WebSocket sends that can
throw are modeled by an explicit `sendOk : Bool` parameter; every source
function catches such failures internally, which is why the embedded
functions return plain values rather than `Except`.
-/

namespace AIAssistant

/-- JS `Map.get`: first (and, when keys are distinct, only) binding. -/
def mapGet {α : Type} : List (String × α) → String → Option α
  | [], _ => none
  | (k, v) :: rest, key => if k = key then some v else mapGet rest key

/-- JS `Map.set`: replace the entry when the key is present, append otherwise. -/
def mapSet {α : Type} : List (String × α) → String → α → List (String × α)
  | [], key, v => [(key, v)]
  | (k, w) :: rest, key, v =>
      if k = key then (key, v) :: rest else (k, w) :: mapSet rest key v

/-- JS `Map.delete`: remove the binding for the key, if any. -/
def mapDelete {α : Type} : List (String × α) → String → List (String × α)
  | [], _ => []
  | (k, w) :: rest, key => if k = key then rest else (k, w) :: mapDelete rest key

/-- The keys of the modeled map. -/
def mapKeys {α : Type} (m : List (String × α)) : List String := m.map (·.1)

/-- Well-formedness of a modeled JS `Map`: one binding per key. -/
def MapWF {α : Type} (m : List (String × α)) : Prop := (mapKeys m).Nodup

namespace Realtime

/-- Model of `session.stats` in realtime.js (`createSession`, line 56). -/
structure Stats where
  audioChunksSent : Nat
  audioChunksReceived : Nat
  messagesReceived : Nat
  deriving Repr, DecidableEq

/-- Model of `session.pendingToolCall` (realtime.js).  The object created in the
`response.output_item.added` branch has `name`, `callId` and `arguments`
fields; the object created in the `response.function_call_arguments.delta`
fallback branch has no `callId` field, hence `Option String`. -/
structure PendingToolCall where
  name : String
  callId : Option String
  arguments : String
  deriving Repr, DecidableEq

/-- One realtime session record: the object built in
`RealtimeService.createSession` (realtime.js 46-61).  The `ws` reference is
modeled by its observable state `wsReadyState` (0 = CONNECTING, 1 = OPEN,
2 = CLOSING, 3 = CLOSED); `startTime` is an epoch timestamp. -/
structure RTSession where
  callSid : String
  isConnected : Bool
  sessionId : Option String
  transcription : String
  currentAIResponse : String
  audioBuffer : List String
  startTime : Nat
  pendingToolCall : Option PendingToolCall
  stats : Stats
  wsReadyState : Nat
  deriving Repr, DecidableEq

/-- State of the `RealtimeService` singleton: the API-key configuration
flag and the `sessions` map (`callSid -> session`). -/
structure RealtimeState where
  openaiApiKeyConfigured : Bool
  sessions : List (String × RTSession)
  deriving Repr, DecidableEq

/-- Source `RealtimeService.isConfigured` (realtime.js 23-25). -/
def RealtimeState.isConfigured (st : RealtimeState) : Bool :=
  st.openaiApiKeyConfigured

/-- The fresh session object allocated in `createSession` (realtime.js
46-61): not yet connected, empty buffers, zeroed stats, WebSocket still in
CONNECTING state. -/
def freshSession (callSid : String) (now : Nat) : RTSession :=
  { callSid := callSid
    isConnected := false
    sessionId := none
    transcription := ""
    currentAIResponse := ""
    audioBuffer := []
    startTime := now
    pendingToolCall := none
    stats := { audioChunksSent := 0, audioChunksReceived := 0, messagesReceived := 0 }
    wsReadyState := 0 }

/-- Source `RealtimeService.createSession` (realtime.js 33-119).  Throws when the
API key is missing; otherwise opens the OpenAI WebSocket, builds the fresh
session object and stores it with `this.sessions.set(callSid, session)`.
There is NO check for an existing session under the same `callSid`: `set`
replaces any existing binding.  The WebSocket event handlers installed here
are modeled separately (`wsOpenHandler`, `handleOpenAIMessage`,
`wsCloseHandler`). -/
def createSession (st : RealtimeState) (callSid : String) (now : Nat) :
    Except String (RealtimeState × RTSession) :=
  if st.isConfigured then
    let session := freshSession callSid now
    .ok ({ st with sessions := mapSet st.sessions callSid session }, session)
  else
    .error "OpenAI API key not configured. Add OPENAI_API_KEY to .env"

/-- Messages written to the OpenAI-side WebSocket (the engine socket). -/
inductive OutMsg where
  | sessionUpdate (instructions : String)
  | inputAudioAppend (audio : String)
  | inputAudioCommit
  | toolResult (callId : Option String) (output : String)
  deriving Repr, DecidableEq

/-- Source `RealtimeService.sendAudioToOpenAI` (realtime.js 126-143): looks the
session up; when absent or not connected it returns without sending or
mutating anything.  Otherwise it sends an `input_audio_buffer.append`
message and increments `stats.audioChunksSent`; a throwing `ws.send`
(`sendOk = false`) is caught, so nothing is sent and the counter (which is
incremented after the send) stays unchanged. -/
def sendAudioToOpenAI (st : RealtimeState) (callSid audioBase64 : String)
    (sendOk : Bool) : RealtimeState × List OutMsg :=
  match mapGet st.sessions callSid with
  | none => (st, [])
  | some session =>
      if session.isConnected then
        if sendOk then
          let session' := { session with
            stats := { session.stats with
              audioChunksSent := session.stats.audioChunksSent + 1 } }
          ({ st with sessions := mapSet st.sessions callSid session' },
            [.inputAudioAppend audioBase64])
        else (st, [])
      else (st, [])

/-- Source `RealtimeService.commitAudioBuffer` (realtime.js 150-164): same guard
as `sendAudioToOpenAI`; on success sends a single
`input_audio_buffer.commit` message; a send failure is caught locally. -/
def commitAudioBuffer (st : RealtimeState) (callSid : String) (sendOk : Bool) :
    RealtimeState × List OutMsg :=
  match mapGet st.sessions callSid with
  | none => (st, [])
  | some session =>
      if session.isConnected then
        if sendOk then (st, [.inputAudioCommit])
        else (st, [])
      else (st, [])

/-- Character constants used by the argument parser (kept out of string
literals). -/
def quoteChar : Char := Char.ofNat 34

/-- Opening curly brace character. -/
def lbraceChar : Char := Char.ofNat 123

/-- Closing curly brace character. -/
def rbraceChar : Char := Char.ofNat 125

/-- JSON-insignificant whitespace. -/
def isJsonWs (c : Char) : Bool :=
  c = ' ' || c = '\t' || c = '\n' || c = '\r'

/-- Skip leading JSON whitespace. -/
def skipWs : List Char → List Char
  | [] => []
  | c :: cs => if isJsonWs c then skipWs cs else c :: cs

/-- Consume a string-literal body up to (and including) the closing quote,
returning the content and the remainder.  Escape sequences are not modeled
(no claim exercises them). -/
def parseStrBody : List Char → Option (List Char × List Char)
  | [] => none
  | c :: cs =>
      if c = quoteChar then some ([], cs)
      else
        match parseStrBody cs with
        | some (s, r) => some (c :: s, r)
        | none => none

/-- Parse the field list of a flat JSON object (string keys, string
values), starting right after the opening brace and consuming the closing
brace.  Fuel-indexed recursion; the fuel is at least the input length. -/
def parseFieldsAux : Nat → List Char → Option (List (String × String) × List Char)
  | 0, _ => none
  | Nat.succ fuel, cs =>
      match skipWs cs with
      | [] => none
      | c :: rest =>
          if c = quoteChar then
            match parseStrBody rest with
            | none => none
            | some (key, r1) =>
                match skipWs r1 with
                | [] => none
                | c2 :: r2 =>
                    if c2 = ':' then
                      match skipWs r2 with
                      | [] => none
                      | c3 :: r3 =>
                          if c3 = quoteChar then
                            match parseStrBody r3 with
                            | none => none
                            | some (val, r4) =>
                                match skipWs r4 with
                                | [] => none
                                | c5 :: r5 =>
                                    if c5 = ',' then
                                      match parseFieldsAux fuel r5 with
                                      | some (fs, r6) =>
                                          some ((String.mk key, String.mk val) :: fs, r6)
                                      | none => none
                                    else if c5 = rbraceChar then
                                      some ([(String.mk key, String.mk val)], r5)
                                    else none
                          else none
                    else none
          else none

/-- Model of `JSON.parse` as used on accumulated tool-call argument text
(realtime.js 273): the arguments the engine streams are flat JSON objects
with string values (for example the `update_caller_name` payload), so the
model parses exactly that fragment and fails on everything else — just as
`JSON.parse` fails on any malformed text. -/
def jsonParseFlat (s : String) : Option (List (String × String)) :=
  match skipWs s.data with
  | [] => none
  | c :: rest =>
      if c = lbraceChar then
        match skipWs rest with
        | [] => none
        | c2 :: r2 =>
            if c2 = rbraceChar then
              if (skipWs r2).isEmpty then some [] else none
            else
              match parseFieldsAux (rest.length + 1) rest with
              | some (fs, r) => if (skipWs r).isEmpty then some fs else none
              | none => none
      else none

/-- The fields of an OpenAI realtime event that `_handleOpenAIMessage`
(realtime.js 170-302) reads.  `type` is the event-type string; the other
fields model the optional payload properties each branch accesses. -/
structure OAIMessage where
  type : String
  sessionId : Option String := none
  transcript : Option String := none
  delta : Option String := none
  itemType : Option String := none
  itemName : Option String := none
  itemCallId : Option String := none
  name : Option String := none
  responseStatus : Option String := none
  responseOutputLen : Nat := 0
  deriving Repr, DecidableEq

/-- Events the RealtimeService emits (`this.emit(...)` calls in
realtime.js). -/
inductive REvent where
  | sessionCreated (callSid : String)
  | sessionError (callSid error : String)
  | sessionClosed (callSid : String)
  | userTranscription (callSid text : String)
  | responseAudio (callSid : String) (audio : Option String)
  | assistantTranscript (callSid text : String)
  | responseComplete (callSid : String)
  | toolCall (callSid toolName : String)
      (toolArgs : List (String × String)) (callId : Option String)
  | openaiError (callSid : String)
  deriving Repr, DecidableEq

/-- The JS event-name string under which each event is emitted. -/
def REvent.evName : REvent → String
  | .sessionCreated _ => "session-created"
  | .sessionError _ _ => "session-error"
  | .sessionClosed _ => "session-closed"
  | .userTranscription _ _ => "user-transcription"
  | .responseAudio _ _ => "response-audio"
  | .assistantTranscript _ _ => "assistant-transcript"
  | .responseComplete _ => "response-complete"
  | .toolCall _ _ _ _ => "tool-call"
  | .openaiError _ => "openai-error"

/-- Source `RealtimeService._handleOpenAIMessage` (realtime.js 170-302),
branch by branch on `message.type`.  Returns the updated session record
and the events emitted.  In the `response.function_call_arguments.done`
branch a `JSON.parse` failure is caught and logged, leaving `toolArgs` as
the empty object, and the `tool-call` event is emitted regardless;
`pendingToolCall` is deliberately NOT reset there (realtime.js 287).
`session.stats.messagesReceived` is incremented for every message
(realtime.js 301). -/
def handleOpenAIMessage (callSid : String) (s : RTSession) (msg : OAIMessage) :
    RTSession × List REvent :=
  let t := msg.type
  let result : RTSession × List REvent :=
    if t = "session.created" then
      ({ s with sessionId := msg.sessionId }, [])
    else if t = "session.updated" then (s, [])
    else if t = "conversation.item.created" then (s, [])
    else if t = "conversation.item.input_audio_transcription.completed" then
      match msg.transcript with
      | some tr => ({ s with transcription := tr }, [.userTranscription callSid tr])
      | none => (s, [])
    else if t = "response.audio.delta" then
      ({ s with stats := { s.stats with
          audioChunksReceived := s.stats.audioChunksReceived + 1 } },
        [.responseAudio callSid msg.delta])
    else if t = "response.created" then (s, [])
    else if t = "response.done" then
      if msg.responseStatus = some "failed" then (s, [])
      else if msg.responseStatus = some "completed" ∧ 0 < msg.responseOutputLen then
        if s.currentAIResponse ≠ "" then
          ({ s with currentAIResponse := "" },
            [.assistantTranscript callSid s.currentAIResponse,
             .responseComplete callSid])
        else (s, [.responseComplete callSid])
      else (s, [])
    else if t = "response.text.delta" then
      match msg.delta with
      | some d => ({ s with currentAIResponse := s.currentAIResponse ++ d }, [])
      | none => (s, [])
    else if t = "response.output_item.added" then
      if msg.itemType = some "function_call" then
        let p : PendingToolCall :=
          { name := msg.itemName.getD ""
            callId := some (msg.itemCallId.getD "")
            arguments := "" }
        ({ s with pendingToolCall := some p }, [])
      else (s, [])
    else if t = "response.function_call_arguments.delta" then
      let s1 := match s.pendingToolCall with
        | none =>
            let p : PendingToolCall :=
              { name := msg.name.getD "", callId := none, arguments := "" }
            { s with pendingToolCall := some p }
        | some _ => s
      match s1.pendingToolCall, msg.delta with
      | some p, some d =>
          let p' := { p with arguments := p.arguments ++ d }
          ({ s1 with pendingToolCall := some p' }, [])
      | _, _ => (s1, [])
    else if t = "response.function_call_arguments.done" then
      match s.pendingToolCall with
      | some p =>
          let toolArgs := (jsonParseFlat p.arguments).getD []
          (s, [.toolCall callSid p.name toolArgs p.callId])
      | none => (s, [])
    else if t = "error" then (s, [.openaiError callSid])
    else (s, [])
  ({ result.1 with stats := { result.1.stats with
      messagesReceived := result.1.stats.messagesReceived + 1 } }, result.2)

/-- JS values that can appear as `result.result` of a tool execution;
`sendToolResult` (realtime.js 318-339) switches on their runtime shape.
`vother` carries the `String(x)` rendering of a number/boolean value. -/
inductive RVal where
  | vstr (s : String)
  | varr (items : List RVal)
  | vobj (fields : List (String × RVal))
  | vother (asString : String)

/-- Result object handed to `sendToolResult`:
`{ success, result, error }`. -/
structure ToolResult where
  success : Bool
  result : RVal := .vstr ""
  error : String := ""

mutual

/-- Model of `JSON.stringify` on an `RVal` (indentation of the
`(x, null, 2)` pretty-printing is not reproduced; no claim depends on the
rendered text). -/
def jsonStringifyV : RVal → String
  | .vstr s => "\"" ++ s ++ "\""
  | .varr items => "[" ++ String.intercalate "," (jsonStringifyList items) ++ "]"
  | .vobj fs => "\x7b" ++ String.intercalate "," (jsonStringifyFields fs) ++ "\x7d"
  | .vother s => s

/-- Stringify a list of values. -/
def jsonStringifyList : List RVal → List String
  | [] => []
  | v :: vs => jsonStringifyV v :: jsonStringifyList vs

/-- Stringify object fields. -/
def jsonStringifyFields : List (String × RVal) → List String
  | [] => []
  | (k, v) :: fs => ("\"" ++ k ++ "\":" ++ jsonStringifyV v) :: jsonStringifyFields fs

end

/-- Property lookup `x?.field`: defined on objects, `undefined`
elsewhere. -/
def rvalField : RVal → String → Option RVal
  | .vobj fs, key => mapGet fs key
  | _, _ => none

/-- JS truthiness of an optional property value (`undefined`, the empty
string, `0` and `false` are falsy). -/
def rvalTruthy : Option RVal → Bool
  | none => false
  | some (.vstr s) => s ≠ ""
  | some (.varr _) => true
  | some (.vobj _) => true
  | some (.vother s) => s ≠ "" && s ≠ "0" && s ≠ "false"

/-- Source `RealtimeService._formatCalendarEvents` item rendering
(realtime.js 373-397), with `new Date(event.start).toLocaleString(...)`
abstracted to the raw `start` string (locale/timezone rendering is outside
the model; no claim depends on it). -/
def formatCalendarEvent (idx : Nat) (ev : RVal) : String :=
  let summary := match rvalField ev "summary" with
    | some (.vstr s) => s
    | _ => ""
  let dateStr := match rvalField ev "start" with
    | some (.vstr s) => s
    | _ => ""
  let base := toString (idx + 1) ++ ". \"" ++ summary ++ "\" on " ++ dateStr
  let withLoc := if rvalTruthy (rvalField ev "location") then
      match rvalField ev "location" with
      | some (.vstr l) => base ++ " at " ++ l
      | _ => base
    else base
  if rvalTruthy (rvalField ev "description") then
    match rvalField ev "description" with
    | some (.vstr d) => withLoc ++ ". Description: " ++ d
    | _ => withLoc
  else withLoc

/-- Source `RealtimeService._formatCalendarEvents` (realtime.js 368-401). -/
def formatCalendarEvents (events : List RVal) : String :=
  if events.isEmpty then "No calendar events found."
  else
    let eventStrings := events.enum.map fun p => formatCalendarEvent p.1 p.2
    "Found " ++ toString events.length ++ " event"
      ++ (if 1 < events.length then "s" else "") ++ ":\n\n"
      ++ String.intercalate "\n\n" eventStrings

/-- The `resultText` computation of `sendToolResult` (realtime.js
318-342): success results are rendered by runtime shape (string as-is,
empty array as a fixed message, calendar-looking arrays through
`_formatCalendarEvents`, other arrays and objects through
`JSON.stringify`, anything else through `String(...)`); failures render as
an `Error: ...` prefix on `result.error`. -/
def resultText (result : ToolResult) : String :=
  if result.success then
    match result.result with
    | .vstr s => s
    | .varr [] => "No items found."
    | .varr (first :: rest) =>
        if rvalTruthy (rvalField first "summary")
            && rvalTruthy (rvalField first "start") then
          formatCalendarEvents (first :: rest)
        else jsonStringifyV (.varr (first :: rest))
    | .vobj fs => jsonStringifyV (.vobj fs)
    | .vother s => s
  else "Error: " ++ result.error

/-- WebSocket OPEN ready-state constant. -/
def WS_OPEN : Nat := 1

/-- Source `RealtimeService.sendToolResult` (realtime.js 311-362): when
the session is missing or its WebSocket is not OPEN, nothing is sent and
nothing changes.  Otherwise exactly one `conversation.item.create /
function_call_output` message tagged with the given `call_id` is sent, and
`pendingToolCall` is cleared only after the send succeeds; a throwing send
is caught and leaves the accumulator in place. -/
def sendToolResult (st : RealtimeState) (callSid : String)
    (callId : Option String) (result : ToolResult) (sendOk : Bool) :
    RealtimeState × List OutMsg :=
  match mapGet st.sessions callSid with
  | none => (st, [])
  | some session =>
      if session.wsReadyState = WS_OPEN then
        if sendOk then
          let session' := { session with pendingToolCall := none }
          ({ st with sessions := mapSet st.sessions callSid session' },
            [.toolResult callId (resultText result)])
        else (st, [])
      else (st, [])

/-- The `ws.on('open')` handler installed in `createSession` (realtime.js
64-85): marks the session connected, sends the `session.update`
configuration message carrying the system instructions, and emits
`session-created`. -/
def wsOpenHandler (s : RTSession) (systemPrompt : Option String)
    (defaultPrompt : String) : RTSession × List OutMsg × List REvent :=
  let s' := { s with isConnected := true, wsReadyState := WS_OPEN }
  (s', [.sessionUpdate (systemPrompt.getD defaultPrompt)],
    [.sessionCreated s.callSid])

/-- The `ws.on('close')` handler installed in `createSession` (realtime.js
107-112): marks the session disconnected, deletes the map entry, emits
`session-closed`. -/
def wsCloseHandler (st : RealtimeState) (callSid : String) :
    RealtimeState × List REvent :=
  let st' := match mapGet st.sessions callSid with
    | none => { st with sessions := mapDelete st.sessions callSid }
    | some session =>
        { st with sessions :=
            mapDelete (mapSet st.sessions callSid
              { session with isConnected := false }) callSid }
  (st', [.sessionClosed callSid])

/-- Source `RealtimeService.closeSession` (realtime.js 451-473): a missing
session is a warn-and-return no-op; otherwise `ws.close()` is invoked when
the session is still connected (returned flag) and the map entry is
deleted. -/
def closeSession (st : RealtimeState) (callSid : String) :
    RealtimeState × Bool :=
  match mapGet st.sessions callSid with
  | none => (st, false)
  | some session =>
      ({ st with sessions := mapDelete st.sessions callSid },
        session.isConnected)

/-- Every event name the RealtimeService can emit, read off the
`this.emit(...)` call sites in realtime.js: the three socket-lifecycle
handlers installed in `createSession` and the branches of
`_handleOpenAIMessage`. -/
def realtimeEmitNames : List String :=
  ["session-created", "session-error", "session-closed",
   "user-transcription", "response-audio", "assistant-transcript",
   "response-complete", "tool-call", "openai-error"]

/-- The event names index.js subscribes to on the realtime service
(`realtimeService.on(...)`, index.js 404-473). -/
def indexRealtimeListeners : List String :=
  ["session-ready", "response-audio", "user-transcription",
   "assistant-transcript", "tool-call"]

/-- The method names defined on the `RealtimeService` class (realtime.js
class body). -/
def realtimeServiceMethods : List String :=
  ["isConfigured", "createSession", "sendAudioToOpenAI",
   "commitAudioBuffer", "_handleOpenAIMessage", "sendToolResult",
   "_formatCalendarEvents", "_getDefaultSystemPrompt", "getSession",
   "getActiveSessions", "getSessionStats", "closeSession",
   "clearAllSessions"]

end Realtime

namespace Tools

/-- The tool names that have handlers in `functionMap`
(src/services/functionHandler.js 16-161). -/
def functionMapNames : List String :=
  ["send_email", "read_emails", "summarize_emails", "send_sms",
   "list_sms_history", "list_events", "create_event", "update_event",
   "delete_event", "update_caller_name"]

/-- The tool names exposed to the AI engine: `ToolsService.getTools`
(src/services/tools.js 22-38) concatenates databaseTools, calendarTools,
emailTools, twilioTools and telegramTools.  The four calendar names are
attested by the repository docs (the calendarTools schema file is not
among the recovered sources); every other name is read directly from its
schema file. -/
def toolSchemaNames : List String :=
  ["update_caller_name",
   "list_events", "create_event", "update_event", "delete_event",
   "send_email", "read_emails", "summarize_emails",
   "send_sms", "list_sms_history", "hang_up_call",
   "send_telegram_message", "summarize_and_send_telegram",
   "send_telegram_summary"]

/-- Outcome of running one `functionMap` handler.  The handlers call
external collaborators (email, calendar, database); an `oracle` of
this type stands for those calls: `ok` is a normal return, `fail` a thrown
error whose message `executeFunction` catches. -/
inductive ExecOutcome where
  | ok (value : Realtime.RVal)
  | fail (err : String)

/-- Source `executeFunction` (functionHandler.js 170-190): an unknown name
throws `Unknown function: <name>` BEFORE the try/catch, so that throw
propagates to the caller; a known handler runs (modeled by `oracle`) and
its throw is caught into `{success:false, error}`.  The signature takes
only `(functionName, params, phone)` — the `callSid` that tools.js passes
as a fourth argument is silently dropped, so no handler can reach the
call. -/
def executeFunction
    (oracle : String → List (String × String) → Option String → ExecOutcome)
    (name : String) (args : List (String × String)) (phone : Option String) :
    Except String Realtime.ToolResult :=
  if functionMapNames.contains name then
    match oracle name args phone with
    | .ok v => .ok { success := true, result := v }
    | .fail e => .ok { success := false, error := e }
  else
    .error ("Unknown function: " ++ name)

set_option linter.unusedVariables false in
/-- Source `ToolsService.executeTool` (tools.js 48-59): wraps
`executeFunction` in a try/catch, converting the unknown-function throw
into an error result.  The `callSid` parameter is accepted here but, as
noted above, never reaches any handler (hence the silenced linter). -/
def executeTool
    (oracle : String → List (String × String) → Option String → ExecOutcome)
    (name : String) (args : List (String × String)) (phone : Option String)
    (callSid : Option String) : Realtime.ToolResult :=
  match executeFunction oracle name args phone with
  | .ok r => r
  | .error e => { success := false, error := e }

end Tools

namespace Twilio

/-- Transport-side audio buffer: `Buffer.from(payload, 'base64')` is
modeled by tagging the base64 source string (byte-level decoding is
irrelevant to every claim). -/
structure Buf where
  fromBase64 : String
  deriving Repr, DecidableEq

/-- Model of `streamData` (twilio.js 148-155). -/
structure StreamData where
  callSid : String
  streamSid : String
  audioChunks : List Buf
  startTime : Nat
  isActive : Bool
  deriving Repr, DecidableEq

/-- State of the `TwilioService` singleton that the voice path touches:
the `activeStreams` map (`callSid -> streamData`). -/
structure TwilioState where
  activeStreams : List (String × StreamData)
  deriving Repr, DecidableEq

/-- Source `TwilioService.initializeStream` (twilio.js 145-163): builds a
fresh stream record and stores it with `activeStreams.set` — there is no
duplicate-call check, so an existing stream under the same callSid is
replaced. -/
def initializeStream (st : TwilioState) (callSid streamSid : String)
    (now : Nat) : TwilioState × StreamData :=
  let streamData : StreamData :=
    { callSid := callSid, streamSid := streamSid, audioChunks := []
      startTime := now, isActive := true }
  ({ st with activeStreams := mapSet st.activeStreams callSid streamData },
    streamData)

/-- Source `TwilioService.handleAudioData` (twilio.js 170-187): a missing
stream is a warn-and-return no-op; otherwise the chunk is pushed onto
`streamData.audioChunks`, where it stays for the stream's whole lifetime,
and an `audio-received` event is emitted. -/
def handleAudioData (st : TwilioState) (callSid : String) (audioBuffer : Buf) :
    TwilioState :=
  match mapGet st.activeStreams callSid with
  | none => st
  | some streamData =>
      let streamData' :=
        { streamData with
          audioChunks := streamData.audioChunks ++ [audioBuffer] }
      { st with activeStreams := mapSet st.activeStreams callSid streamData' }

/-- Source `TwilioService.closeStream` (twilio.js 193-218): a missing
stream is a warn-and-return no-op; otherwise it marks the stream inactive,
emits `stream-ended` and deletes the map entry. -/
def closeStream (st : TwilioState) (callSid : String) : TwilioState :=
  match mapGet st.activeStreams callSid with
  | none => st
  | some _ => { st with activeStreams := mapDelete st.activeStreams callSid }

end Twilio

namespace Index

/-- Per-call entry of the `conversationStates` map (index.js 221-229).
`messages` accumulates `{role, content}` turns for the post-call summary;
`summarySent` guards against double-sending it. -/
structure ConvState where
  callSid : String
  phone : String
  conversationId : Nat
  startTime : Nat
  messages : List (String × String)
  summarySent : Bool
  deriving Repr, DecidableEq

/-- The mutable state the index.js handlers touch: the
`conversationStates` map, the TwilioService stream map, the
RealtimeService session map, a count of Telegram summary deliveries
(`telegramService.sendVoicemailSummary` calls) and a count of
`dbService.endConversation` calls. -/
structure CoordState where
  conversationStates : List (String × ConvState)
  twilio : Twilio.TwilioState
  realtime : Realtime.RealtimeState
  telegramSends : Nat
  dbEndCalls : Nat
  deriving Repr, DecidableEq

/-- Source `sendCallSummaryToTelegram` (index.js 153-171): returns
untouched when the call has no conversation state, when `summarySent` is
already set, or when no messages accumulated; otherwise it sets
`summarySent` FIRST (so stop + close cannot both deliver) and then sends
the summary (a Telegram failure is caught and does not unset the flag). -/
def sendCallSummaryToTelegram (st : CoordState) (callSid : String) :
    CoordState :=
  match mapGet st.conversationStates callSid with
  | none => st
  | some state =>
      if state.summarySent then st
      else if state.messages.isEmpty then st
      else
        let state' := { state with summarySent := true }
        { st with
          conversationStates := mapSet st.conversationStates callSid state'
          telegramSends := st.telegramSends + 1 }

/-- Per-connection closure variables of the `wss.on('connection')` handler
(index.js 181-185): the call/stream ids learned from the `start` event,
whether the `createSession` promise has resolved (the `openaiSession`
variable), and the pending `audioCommitTimer`, modeled by its absolute
fire deadline. -/
structure ConnState where
  callSid : Option String
  streamSid : Option String
  openaiSessionResolved : Bool
  audioCommitTimer : Option Nat
  deriving Repr, DecidableEq

/-- The commit-timer delay `COMMIT_INTERVAL` (index.js 185). -/
def COMMIT_INTERVAL : Nat := 500

/-- The forwarding condition of the media branch (index.js 317):
`openaiSession && openaiSession.isConnected`.  The closure variable holds
the same object the realtime `sessions` map stores, so its live
`isConnected` field is read through the map (the close handler clears the
flag before deleting the entry). -/
def engineReady (conn : ConnState) (rt : Realtime.RealtimeState)
    (callSid : String) : Bool :=
  conn.openaiSessionResolved &&
    (match mapGet rt.sessions callSid with
     | some s => s.isConnected
     | none => false)

/-- The `media` branch of the transport pump (index.js 302-332).  An
invalid message (no payload) returns early; otherwise the frame is handed
to `twilioService.handleAudioData` unconditionally, and only when the
engine session is resolved and connected is it forwarded via
`sendAudioToOpenAI`, with the rolling commit timer cleared and rescheduled
to `now + COMMIT_INTERVAL`.  Every throw inside the branch is caught
(index.js 329-331), so the pump always returns normally. -/
def mediaBranch (conn : ConnState) (st : CoordState) (payload : Option String)
    (now : Nat) (sendOk : Bool) :
    ConnState × CoordState × List Realtime.OutMsg :=
  match payload with
  | none => (conn, st, [])
  | some audioPayload =>
      match conn.callSid with
      | none => (conn, st, [])
      | some callSid =>
          let st1 := { st with
            twilio := Twilio.handleAudioData st.twilio callSid ⟨audioPayload⟩ }
          if engineReady conn st1.realtime callSid then
            let sent := Realtime.sendAudioToOpenAI st1.realtime callSid
              audioPayload sendOk
            ({ conn with audioCommitTimer := some (now + COMMIT_INTERVAL) },
              { st1 with realtime := sent.1 }, sent.2)
          else (conn, st1, [])

/-- Discrete-time semantics of the rolling audio-commit timer (index.js
321-326): a pending timer with deadline `f` fires iff the next frame
arrives no earlier than `f` (otherwise `clearTimeout` cancels it first),
and each frame schedules a fresh deadline `t + COMMIT_INTERVAL`.  Given
the (sorted) frame arrival times, returns the times at which the timer
callback — `realtimeService.commitAudioBuffer` — actually runs. -/
def commitFireTimes : Option Nat → List Nat → List Nat
  | none, [] => []
  | some f, [] => [f]
  | timer, t :: rest =>
      let fired := match timer with
        | some f => if f ≤ t then [f] else []
        | none => []
      fired ++ commitFireTimes (some (t + COMMIT_INTERVAL)) rest

/-- The `stop` branch of the transport pump (index.js 335-351): summary
first (the conversation state is still present), then
`dbService.endConversation`, `twilioService.closeStream`,
`realtimeService.closeSession`, and finally the `conversationStates`
entry is removed. -/
def stopBranch (st : CoordState) (callSidOpt : Option String) : CoordState :=
  match callSidOpt with
  | none => st
  | some callSid =>
      let st1 := sendCallSummaryToTelegram st callSid
      let st2 := { st1 with dbEndCalls := st1.dbEndCalls + 1 }
      let st3 := { st2 with twilio := Twilio.closeStream st2.twilio callSid }
      let st4 := { st3 with
        realtime := (Realtime.closeSession st3.realtime callSid).1 }
      { st4 with
        conversationStates := mapDelete st4.conversationStates callSid }

/-- The transport socket `close` handler (index.js 373-384): summary (a
no-op when the `stop` branch already ran), then `endConversation`,
`conversationStates` removal, `closeStream` and `closeSession`. -/
def closeHandler (st : CoordState) (callSidOpt : Option String) : CoordState :=
  match callSidOpt with
  | none => st
  | some callSid =>
      let st1 := sendCallSummaryToTelegram st callSid
      let st2 := { st1 with dbEndCalls := st1.dbEndCalls + 1 }
      let st3 := { st2 with
        conversationStates := mapDelete st2.conversationStates callSid }
      let st4 := { st3 with twilio := Twilio.closeStream st3.twilio callSid }
      { st4 with
        realtime := (Realtime.closeSession st4.realtime callSid).1 }

/-- The transport socket `error` handler (index.js 386-394): same teardown
as the close handler but with no summary attempt. -/
def errorHandler (st : CoordState) (callSidOpt : Option String) : CoordState :=
  match callSidOpt with
  | none => st
  | some callSid =>
      let st1 := { st with dbEndCalls := st.dbEndCalls + 1 }
      let st2 := { st1 with
        conversationStates := mapDelete st1.conversationStates callSid }
      let st3 := { st2 with twilio := Twilio.closeStream st2.twilio callSid }
      { st3 with
        realtime := (Realtime.closeSession st3.realtime callSid).1 }

/-- The `realtimeService.on('tool-call')` handler (index.js 449-473):
resolves the caller's phone from `conversationStates`; when it is missing,
an error tool-result is sent; otherwise the tool is executed through
`toolsService.executeTool` and its result is sent back with the same
`callId` the event carried.  The handler performs no stream, session or
call closing of any kind. -/
def onToolCall
    (oracle : String → List (String × String) → Option String → Tools.ExecOutcome)
    (st : CoordState) (callSid toolName : String)
    (toolArgs : List (String × String)) (callId : Option String)
    (sendOk : Bool) : CoordState × List Realtime.OutMsg :=
  match mapGet st.conversationStates callSid with
  | none =>
      let sent := Realtime.sendToolResult st.realtime callSid callId
        { success := false, error := "Internal error: phone number not found" }
        sendOk
      ({ st with realtime := sent.1 }, sent.2)
  | some convState =>
      let result := Tools.executeTool oracle toolName toolArgs
        (some convState.phone) (some callSid)
      let sent := Realtime.sendToolResult st.realtime callSid callId result
        sendOk
      ({ st with realtime := sent.1 }, sent.2)

end Index

namespace Examples

open Realtime Twilio Index Tools

/-- A session for call `CA1` that has completed the OpenAI handshake. -/
def activeSession : RTSession :=
  { freshSession "CA1" 0 with isConnected := true, wsReadyState := WS_OPEN }

/-- Realtime service state holding the single active session `CA1`. -/
def rtActive : RealtimeState :=
  { openaiApiKeyConfigured := true, sessions := [("CA1", activeSession)] }

/-- Transport stream for call `CA1` with no chunks stored yet. -/
def stream1 : StreamData :=
  { callSid := "CA1", streamSid := "MZ1", audioChunks := []
    startTime := 0, isActive := true }

/-- Twilio service state holding `stream1`. -/
def twActive : TwilioState := { activeStreams := [("CA1", stream1)] }

/-- Conversation state for call `CA1` with two logged turns and the
post-call summary not yet dispatched. -/
def conv1 : ConvState :=
  { callSid := "CA1", phone := "+12125551234", conversationId := 7
    startTime := 0
    messages := [("user", "Hi, it is Jane"), ("assistant", "Hello Jane")]
    summarySent := false }

/-- Coordinator state for the fully active call `CA1`. -/
def coordActive : CoordState :=
  { conversationStates := [("CA1", conv1)], twilio := twActive
    realtime := rtActive, telegramSends := 0, dbEndCalls := 0 }

/-- Realtime state with no session registered (engine side absent). -/
def rtEmpty : RealtimeState :=
  { openaiApiKeyConfigured := true, sessions := [] }

/-- Coordinator state before the OpenAI session exists. -/
def coordPreHandshake : CoordState :=
  { conversationStates := [("CA1", conv1)], twilio := twActive
    realtime := rtEmpty, telegramSends := 0, dbEndCalls := 0 }

/-- Connection state after the `start` event but before the
`createSession` promise resolves. -/
def connPre : ConnState :=
  { callSid := some "CA1", streamSid := some "MZ1"
    openaiSessionResolved := false, audioCommitTimer := none }

/-- Connection state for the fully active call. -/
def connActive : ConnState :=
  { callSid := some "CA1", streamSid := some "MZ1"
    openaiSessionResolved := true, audioCommitTimer := none }

/-- A pending tool call whose argument text is still incomplete. -/
def pendingTc1 : PendingToolCall :=
  { name := "update_caller_name", callId := some "tc1"
    arguments := "\x7b\"na" }

/-- Session with `pendingTc1` in flight. -/
def sessionWithPending : RTSession :=
  { activeSession with pendingToolCall := some pendingTc1 }

/-- A pending tool call whose accumulated argument text is malformed. -/
def pendingBad : PendingToolCall :=
  { name := "update_caller_name", callId := some "tc1"
    arguments := "\x7bbad json" }

/-- Session with the malformed pending call. -/
def sessionWithBadPending : RTSession :=
  { activeSession with pendingToolCall := some pendingBad }

/-- Oracle for the external tool collaborators; the worked examples only
exercise paths on which it is never consulted. -/
def oracleUnused :
    String → List (String × String) → Option String → ExecOutcome :=
  fun _ _ _ => .fail "external collaborator not exercised"

/-- Realtime state whose session for `CA1` has not completed the
handshake (WebSocket still CONNECTING). -/
def rtFresh : RealtimeState :=
  { openaiApiKeyConfigured := true
    sessions := [("CA1", freshSession "CA1" 0)] }

/-- The engine event announcing a second function call while one is
pending. -/
def secondStartMsg : OAIMessage :=
  { type := "response.output_item.added", itemType := some "function_call"
    itemName := some "hang_up_call", itemCallId := some "tc2" }

/-- The pending accumulator as it looks after `secondStartMsg` is
processed. -/
def overwrittenPending : PendingToolCall :=
  { name := "hang_up_call", callId := some "tc2", arguments := "" }

/-- The engine event completing the pending tool call. -/
def doneMsg : OAIMessage :=
  { type := "response.function_call_arguments.done" }

end Examples

/-! Helper lemmas about the JS `Map` model. -/

theorem mapGet_mapSet_self {α : Type} (m : List (String × α)) (k : String)
    (v : α) : mapGet (mapSet m k v) k = some v := by
  induction m with
  | nil => simp [mapSet, mapGet]
  | cons hd tl ih =>
      obtain ⟨a, w⟩ := hd
      by_cases h : a = k
      · simp [mapSet, h, mapGet]
      · simp [mapSet, h, mapGet, ih]

theorem mem_mapKeys_mapSet {α : Type} {m : List (String × α)} {k x : String}
    {v : α} (hx : x ∈ mapKeys (mapSet m k v)) : x = k ∨ x ∈ mapKeys m := by
  induction m with
  | nil => simpa [mapSet, mapKeys] using hx
  | cons hd tl ih =>
      obtain ⟨a, w⟩ := hd
      by_cases h : a = k
      · simpa [mapSet, h, mapKeys] using hx
      · rcases (by simpa [mapSet, h, mapKeys] using hx) with h1 | h2
        · exact Or.inr (by simp [mapKeys, h1])
        · rcases ih (by simpa [mapKeys] using h2) with h3 | h4
          · exact Or.inl h3
          · exact Or.inr (by simp [mapKeys]; exact Or.inr (by simpa [mapKeys] using h4))

theorem MapWF_mapSet {α : Type} {m : List (String × α)} (k : String) (v : α)
    (hwf : MapWF m) : MapWF (mapSet m k v) := by
  induction m with
  | nil => simp [MapWF, mapSet, mapKeys]
  | cons hd tl ih =>
      obtain ⟨a, w⟩ := hd
      rw [MapWF, mapKeys] at hwf
      simp only [List.map_cons, List.nodup_cons] at hwf
      by_cases h : a = k
      · rw [MapWF, mapSet]
        simp only [h, if_true, mapKeys, List.map_cons, List.nodup_cons]
        exact ⟨by simpa [h, mapKeys] using hwf.1, hwf.2⟩
      · rw [MapWF, mapSet]
        simp only [h, if_false, mapKeys, List.map_cons, List.nodup_cons]
        refine ⟨?_, ih hwf.2⟩
        intro hmem
        have hmem' : a ∈ mapKeys (mapSet tl k v) := by simpa [mapKeys] using hmem
        rcases mem_mapKeys_mapSet hmem' with h1 | h2
        · exact h h1
        · exact hwf.1 (by simpa [mapKeys] using h2)

theorem mapGet_eq_none_of_not_mem {α : Type} {m : List (String × α)}
    {k : String} (h : k ∉ mapKeys m) : mapGet m k = none := by
  induction m with
  | nil => simp [mapGet]
  | cons hd tl ih =>
      obtain ⟨a, w⟩ := hd
      simp only [mapKeys, List.map_cons, List.mem_cons, not_or] at h
      have hak : ¬ a = k := fun hh => h.1 hh.symm
      rw [mapGet, if_neg hak]
      exact ih (by simpa [mapKeys] using h.2)

theorem mapDelete_of_none {α : Type} {m : List (String × α)} {k : String}
    (h : mapGet m k = none) : mapDelete m k = m := by
  induction m with
  | nil => simp [mapDelete]
  | cons hd tl ih =>
      obtain ⟨a, w⟩ := hd
      by_cases hk : a = k
      · simp [mapGet, hk] at h
      · simp only [mapGet, if_neg hk] at h
        simp [mapDelete, hk, ih h]

theorem mapGet_mapDelete_self {α : Type} {m : List (String × α)} {k : String}
    (hwf : MapWF m) : mapGet (mapDelete m k) k = none := by
  induction m with
  | nil => simp [mapDelete, mapGet]
  | cons hd tl ih =>
      obtain ⟨a, w⟩ := hd
      rw [MapWF, mapKeys] at hwf
      simp only [List.map_cons, List.nodup_cons] at hwf
      by_cases h : a = k
      · simp only [mapDelete, if_pos h]
        exact mapGet_eq_none_of_not_mem (by simpa [h, mapKeys] using hwf.1)
      · simp only [mapDelete, if_neg h, mapGet, if_neg h]
        exact ih hwf.2

/-! Claim theorems. -/

/-- C1, counterexample.  With an active session already registered for
call `CA1`, a second `createSession("CA1")` receives no DuplicateCall
rejection: it succeeds, and the stored session afterwards is the fresh
not-yet-connected one — the existing session is replaced, not left in
place.  The transport-side realization, `initializeStream`, likewise
replaces the existing stream (the stored streamSid changes from `MZ1` to
`MZ2`). -/
theorem C1_create_overwrites_counterexample :
    (Realtime.createSession Examples.rtActive "CA1" 5).toOption.map
        (fun r => mapGet r.1.sessions "CA1") =
      some (some (Realtime.freshSession "CA1" 5)) ∧
    Realtime.freshSession "CA1" 5 ≠ Examples.activeSession ∧
    (mapGet (Twilio.initializeStream Examples.twActive "CA1" "MZ2" 5).1.activeStreams
        "CA1").map (·.streamSid) = some "MZ2" ∧
    Examples.stream1.streamSid = "MZ1" := by
  refine ⟨by decide, ?_, by decide, by decide⟩
  intro h
  have : (Realtime.freshSession "CA1" 5).isConnected =
      Examples.activeSession.isConnected := by rw [h]
  simp [Realtime.freshSession, Examples.activeSession] at this

/-- C1, amended: the registry maps are keyed by `callId`, so at most one
session (resp. one stream) is stored per call at any instant; but a second
`create` for an already-active call identifier is not rejected with
DuplicateCall — it succeeds and replaces the existing entry with the fresh
one. -/
theorem C1_uniqueness_amended
    (st : Realtime.RealtimeState) (callSid : String) (now : Nat)
    (hwf : MapWF st.sessions) (hconf : st.openaiApiKeyConfigured = true)
    (tw : Twilio.TwilioState) (streamSid : String)
    (hwt : MapWF tw.activeStreams) :
    (∃ st' s, Realtime.createSession st callSid now = .ok (st', s) ∧
      MapWF st'.sessions ∧
      mapGet st'.sessions callSid = some (Realtime.freshSession callSid now)) ∧
    MapWF (Twilio.initializeStream tw callSid streamSid now).1.activeStreams ∧
    mapGet (Twilio.initializeStream tw callSid streamSid now).1.activeStreams
        callSid = some (Twilio.initializeStream tw callSid streamSid now).2 := by
  have hcreate : Realtime.createSession st callSid now = .ok ({ st with sessions := mapSet st.sessions callSid (Realtime.freshSession callSid now) }, Realtime.freshSession callSid now) := by
    simp [Realtime.createSession, Realtime.RealtimeState.isConfigured, hconf]
  refine ⟨⟨_, _, hcreate, ?_, ?_⟩, ?_, ?_⟩
  · exact MapWF_mapSet callSid _ hwf
  · exact mapGet_mapSet_self ..
  · exact MapWF_mapSet callSid _ hwt
  · exact mapGet_mapSet_self ..

/-- Witness for `C1_uniqueness_amended` at a concrete configured state. -/
theorem C1_uniqueness_amended_witness :
    (∃ st' s, Realtime.createSession Examples.rtActive "CA1" 5 = .ok (st', s) ∧
      MapWF st'.sessions ∧
      mapGet st'.sessions "CA1" = some (Realtime.freshSession "CA1" 5)) ∧
    MapWF (Twilio.initializeStream Examples.twActive "CA1" "MZ2" 5).1.activeStreams ∧
    mapGet (Twilio.initializeStream Examples.twActive "CA1" "MZ2" 5).1.activeStreams
        "CA1" = some (Twilio.initializeStream Examples.twActive "CA1" "MZ2" 5).2 :=
  C1_uniqueness_amended Examples.rtActive "CA1" 5
    (by simp [MapWF, mapKeys, Examples.rtActive]) (by rfl)
    Examples.twActive "MZ2" (by simp [MapWF, mapKeys, Examples.twActive])

/-- C2: the call-termination tool `hang_up_call` is declared in the tool
schemas handed to the engine, but `functionMap` has no handler for it, so
executing it yields the error result `Unknown function: hang_up_call`;
the `tool-call` handler then sends that error back to the engine and
performs no teardown whatsoever: the transport stream stays registered and
active, the engine session stays connected, and the conversation state is
untouched — the Session is left ACTIVE instead of being driven closed. -/
theorem C2_hang_up_call_has_no_handler :
    "hang_up_call" ∈ Tools.toolSchemaNames ∧
    "hang_up_call" ∉ Tools.functionMapNames ∧
    Tools.executeTool Examples.oracleUnused "hang_up_call"
        [("reason", "caller requested")] (some "+12125551234") (some "CA1") =
      { success := false, result := .vstr ""
        error := "Unknown function: hang_up_call" } ∧
    (Index.onToolCall Examples.oracleUnused Examples.coordActive "CA1"
        "hang_up_call" [("reason", "caller requested")] (some "tc1") true).2 =
      [.toolResult (some "tc1") "Error: Unknown function: hang_up_call"] ∧
    (mapGet (Index.onToolCall Examples.oracleUnused Examples.coordActive "CA1"
        "hang_up_call" [("reason", "caller requested")] (some "tc1")
        true).1.twilio.activeStreams "CA1").map (·.isActive) = some true ∧
    (mapGet (Index.onToolCall Examples.oracleUnused Examples.coordActive "CA1"
        "hang_up_call" [("reason", "caller requested")] (some "tc1")
        true).1.realtime.sessions "CA1").map (·.isConnected) = some true ∧
    (Index.onToolCall Examples.oracleUnused Examples.coordActive "CA1"
        "hang_up_call" [("reason", "caller requested")] (some "tc1")
        true).1.conversationStates = Examples.coordActive.conversationStates := by
  refine ⟨by decide, by decide, rfl, ?_, by decide, by decide, rfl⟩
  rfl

/-- C3: the begin-greeting trigger is never sent.  index.js waits for a
`session-ready` event (and would then call
`realtimeService.triggerGreeting`), but the realtime service never emits
an event of that name — the handshake handlers emit `session-created` and
`_handleOpenAIMessage` only ever emits the nine names of
`realtimeEmitNames` — and `triggerGreeting` is not among the methods the
service defines.  So for every call whose handshake succeeds, no
begin-greeting request is ever made, even though the registered listener,
its comment and the system prompt all promise one: a wiring slip, so the
claim describes the intent and the code is in error. -/
theorem C3_greeting_never_triggered :
    "session-ready" ∈ Realtime.indexRealtimeListeners ∧
    "session-ready" ∉ Realtime.realtimeEmitNames ∧
    "triggerGreeting" ∉ Realtime.realtimeServiceMethods ∧
    (∀ s p d, ((Realtime.wsOpenHandler s p d).2.2.map Realtime.REvent.evName) =
      ["session-created"]) ∧
    (∀ e : Realtime.REvent, Realtime.REvent.evName e ∈ Realtime.realtimeEmitNames ∧
      Realtime.REvent.evName e ≠ "session-ready") := by
  refine ⟨by decide, by decide, by decide, fun s p d => rfl, ?_⟩
  intro e
  cases e <;> refine ⟨?_, ?_⟩ <;>
    simp [Realtime.REvent.evName, Realtime.realtimeEmitNames]

/-- C4, counterexample.  A frame arriving before the engine session exists
is indeed not forwarded (no engine message) — but it is NOT "not buffered
anywhere": the media branch hands every frame to
`twilioService.handleAudioData`, which appends it to the stream's
`audioChunks`, so after one pre-handshake frame the stream stores that
frame. -/
theorem C4_frame_buffered_counterexample :
    (Index.mediaBranch Examples.connPre Examples.coordPreHandshake
        (some "aGVsbG8=") 100 true).2.2 = [] ∧
    (mapGet (Index.mediaBranch Examples.connPre Examples.coordPreHandshake
        (some "aGVsbG8=") 100 true).2.1.twilio.activeStreams "CA1").map
        (fun sd => sd.audioChunks) = some [Twilio.Buf.mk "aGVsbG8="] ∧
    ([Twilio.Buf.mk "aGVsbG8="] : List Twilio.Buf) ≠ [] := by
  refine ⟨rfl, by decide, by decide⟩

/-- C4, amended: a frame arriving while the engine session is absent or
not yet connected is not forwarded (no engine-bound message), the pump
returns normally, the connection state (including the commit timer) and
the realtime/conversation state are untouched — so the Session remains
eligible to become active — but the frame IS appended to the transport
stream's `audioChunks` list. -/
theorem C4_prehandshake_drop_amended
    (conn : Index.ConnState) (st : Index.CoordState) (cs payload : String)
    (sd : Twilio.StreamData) (now : Nat) (sendOk : Bool)
    (hcs : conn.callSid = some cs)
    (hready : Index.engineReady conn st.realtime cs = false)
    (hstream : mapGet st.twilio.activeStreams cs = some sd) :
    Index.mediaBranch conn st (some payload) now sendOk =
      (conn, { st with twilio := Twilio.handleAudioData st.twilio cs ⟨payload⟩ }, []) ∧
    mapGet (Twilio.handleAudioData st.twilio cs ⟨payload⟩).activeStreams cs =
      some { sd with audioChunks := sd.audioChunks ++ [⟨payload⟩] } := by
  constructor
  · simp only [Index.mediaBranch, hcs]
    have : Index.engineReady conn ({ st with twilio := Twilio.handleAudioData st.twilio cs ⟨payload⟩ } : Index.CoordState).realtime cs = false := hready
    simp [this]
  · simp only [Twilio.handleAudioData, hstream]
    exact mapGet_mapSet_self ..

/-- Witness for `C4_prehandshake_drop_amended` before the handshake of
call `CA1`. -/
theorem C4_prehandshake_drop_amended_witness :
    Index.mediaBranch Examples.connPre Examples.coordPreHandshake
        (some "aGVsbG8=") 100 true =
      (Examples.connPre,
        { Examples.coordPreHandshake with twilio := Twilio.handleAudioData Examples.coordPreHandshake.twilio "CA1" ⟨"aGVsbG8="⟩ }, []) ∧
    mapGet (Twilio.handleAudioData Examples.coordPreHandshake.twilio "CA1"
        ⟨"aGVsbG8="⟩).activeStreams "CA1" =
      some { Examples.stream1 with audioChunks := Examples.stream1.audioChunks ++ [⟨"aGVsbG8="⟩] } :=
  C4_prehandshake_drop_amended Examples.connPre Examples.coordPreHandshake
    "CA1" "aGVsbG8=" Examples.stream1 100 true rfl (by decide) rfl

/-- C5, counterexample.  With `update_caller_name` pending under
identifier `tc1`, a second function-call start (name `hang_up_call`,
identifier `tc2`) is not rejected: the `response.output_item.added` branch
unconditionally overwrites `pendingToolCall`, so the accumulator
afterwards is the new call and the previous accumulation is discarded —
the pending accumulator is NOT left unchanged. -/
theorem C5_second_start_counterexample :
    (Realtime.handleOpenAIMessage "CA1" Examples.sessionWithPending
        Examples.secondStartMsg).1.pendingToolCall =
      some Examples.overwrittenPending ∧
    Examples.overwrittenPending ≠ Examples.pendingTc1 := by
  refine ⟨rfl, by decide⟩

set_option linter.unusedVariables false in
/-- C5, amended: a tool-call start arriving while a call is pending
overwrites the pending accumulator with a fresh accumulator for the new
call (previous fragments discarded, nothing merged or queued), and emits
no event.  The overwrite is unconditional, which is why the pending-call
hypothesis is not consumed by the proof. -/
theorem C5_second_start_overwrites
    (cs : String) (s : Realtime.RTSession) (p : Realtime.PendingToolCall)
    (nm cid : Option String) (hp : s.pendingToolCall = some p) :
    (Realtime.handleOpenAIMessage cs s
        { type := "response.output_item.added", itemType := some "function_call"
          itemName := nm, itemCallId := cid }).1.pendingToolCall =
      some { name := nm.getD "", callId := some (cid.getD ""), arguments := "" } ∧
    (Realtime.handleOpenAIMessage cs s
        { type := "response.output_item.added", itemType := some "function_call"
          itemName := nm, itemCallId := cid }).2 = [] := by
  exact ⟨rfl, rfl⟩

/-- Witness for `C5_second_start_overwrites` with `pendingTc1` in
flight. -/
theorem C5_second_start_overwrites_witness :
    (Realtime.handleOpenAIMessage "CA1" Examples.sessionWithPending
        { type := "response.output_item.added", itemType := some "function_call"
          itemName := some "hang_up_call", itemCallId := some "tc2" }).1.pendingToolCall =
      some { name := (some "hang_up_call").getD ""
             callId := some ((some "tc2").getD ""), arguments := "" } ∧
    (Realtime.handleOpenAIMessage "CA1" Examples.sessionWithPending
        { type := "response.output_item.added", itemType := some "function_call"
          itemName := some "hang_up_call", itemCallId := some "tc2" }).2 = [] :=
  C5_second_start_overwrites "CA1" Examples.sessionWithPending
    Examples.pendingTc1 (some "hang_up_call") (some "tc2") rfl

/-- C6, counterexample.  Completing a pending call whose accumulated
argument text is the single fragment `{bad json` does not yield any
ParseError result: the parse failure is swallowed and the `tool-call`
event is emitted with the EMPTY arguments object, indistinguishable from
a call invoked with `{}`. -/
theorem C6_parse_failure_counterexample :
    Realtime.jsonParseFlat "\x7bbad json" = none ∧
    (Realtime.handleOpenAIMessage "CA1" Examples.sessionWithBadPending
        Examples.doneMsg).2 =
      [Realtime.REvent.toolCall "CA1" "update_caller_name" [] (some "tc1")] := by
  exact ⟨rfl, rfl⟩

/-- C6, amended: on parse failure `onComplete` neither throws nor yields a
ParseError result — the failure is caught locally, the tool call is
dispatched with the empty arguments object, the pending accumulator is
kept — and a tool result describing a failure can still be sent to the
engine afterwards (it serializes as an `Error: ...` output), so the
session continues. -/
theorem C6_parse_failure_empty_args
    (cs : String) (s : Realtime.RTSession) (p : Realtime.PendingToolCall)
    (hp : s.pendingToolCall = some p)
    (hbad : Realtime.jsonParseFlat p.arguments = none) :
    (Realtime.handleOpenAIMessage cs s Examples.doneMsg).2 =
      [Realtime.REvent.toolCall cs p.name [] p.callId] ∧
    (Realtime.handleOpenAIMessage cs s Examples.doneMsg).1.pendingToolCall =
      some p ∧
    (∀ st s2 e, mapGet st.sessions cs = some s2 →
      s2.wsReadyState = Realtime.WS_OPEN →
      (Realtime.sendToolResult st cs p.callId
          { success := false, result := .vstr "", error := e } true).2 =
        [Realtime.OutMsg.toolResult p.callId ("Error: " ++ e)]) := by
  refine ⟨?_, ?_, ?_⟩
  · simp [Realtime.handleOpenAIMessage, Examples.doneMsg, hp, hbad]
  · simp [Realtime.handleOpenAIMessage, Examples.doneMsg, hp]
  · intro st s2 e hget hopen
    simp [Realtime.sendToolResult, hget, hopen, Realtime.resultText]

/-- Witness for `C6_parse_failure_empty_args` on the fragment
`{bad json`. -/
theorem C6_parse_failure_empty_args_witness :
    (Realtime.handleOpenAIMessage "CA1" Examples.sessionWithBadPending
        Examples.doneMsg).2 =
      [Realtime.REvent.toolCall "CA1" Examples.pendingBad.name []
        Examples.pendingBad.callId] ∧
    (Realtime.handleOpenAIMessage "CA1" Examples.sessionWithBadPending
        Examples.doneMsg).1.pendingToolCall = some Examples.pendingBad ∧
    (∀ st s2 e, mapGet st.sessions "CA1" = some s2 →
      s2.wsReadyState = Realtime.WS_OPEN →
      (Realtime.sendToolResult st "CA1" Examples.pendingBad.callId
          { success := false, result := .vstr "", error := e } true).2 =
        [Realtime.OutMsg.toolResult Examples.pendingBad.callId ("Error: " ++ e)]) :=
  C6_parse_failure_empty_args "CA1" Examples.sessionWithBadPending
    Examples.pendingBad rfl rfl

/-- C7: after the executor returns, `sendToolResult` writes exactly one
tool-result message to the engine socket, tagged with the same call-scoped
identifier it was given (the one the `tool-call` event carried from the
engine), and clears `pendingToolCall` to `null`; when the session is
missing or its socket is not OPEN, nothing is sent and the accumulator is
untouched. -/
theorem C7_tool_result_correlation
    (st : Realtime.RealtimeState) (cs : String) (cid : Option String)
    (res : Realtime.ToolResult) :
    (∀ s, mapGet st.sessions cs = some s →
      s.wsReadyState = Realtime.WS_OPEN →
      Realtime.sendToolResult st cs cid res true =
        ({ st with sessions := mapSet st.sessions cs { s with pendingToolCall := none } },
          [Realtime.OutMsg.toolResult cid (Realtime.resultText res)])) ∧
    (mapGet st.sessions cs = none →
      ∀ ok, Realtime.sendToolResult st cs cid res ok = (st, [])) ∧
    (∀ s, mapGet st.sessions cs = some s →
      s.wsReadyState ≠ Realtime.WS_OPEN →
      ∀ ok, Realtime.sendToolResult st cs cid res ok = (st, [])) := by
  refine ⟨?_, ?_, ?_⟩
  · intro s hget hopen
    simp [Realtime.sendToolResult, hget, hopen]
  · intro hget ok
    simp [Realtime.sendToolResult, hget]
  · intro s hget hnopen ok
    simp [Realtime.sendToolResult, hget, hnopen]

/-- Witness for `C7_tool_result_correlation`: the Scenario-B shaped result
for `update_caller_name` is delivered once, tagged `tc1`, against the open
session; with no session, or with a still-CONNECTING socket, nothing is
sent. -/
theorem C7_tool_result_correlation_witness :
    Realtime.sendToolResult Examples.rtActive "CA1" (some "tc1")
        { success := true, result := .vstr "Saved", error := "" } true =
      ({ Examples.rtActive with sessions := mapSet Examples.rtActive.sessions "CA1" { Examples.activeSession with pendingToolCall := none } },
        [Realtime.OutMsg.toolResult (some "tc1") "Saved"]) ∧
    Realtime.sendToolResult Examples.rtEmpty "CA1" (some "tc1")
        { success := true, result := .vstr "Saved", error := "" } true =
      (Examples.rtEmpty, []) ∧
    Realtime.sendToolResult Examples.rtFresh "CA1" (some "tc1")
        { success := true, result := .vstr "Saved", error := "" } true =
      (Examples.rtFresh, []) :=
  ⟨(C7_tool_result_correlation Examples.rtActive "CA1" (some "tc1")
      { success := true, result := .vstr "Saved", error := "" }).1
        Examples.activeSession rfl rfl,
   (C7_tool_result_correlation Examples.rtEmpty "CA1" (some "tc1")
      { success := true, result := .vstr "Saved", error := "" }).2.1 rfl true,
   (C7_tool_result_correlation Examples.rtFresh "CA1" (some "tc1")
      { success := true, result := .vstr "Saved", error := "" }).2.2
        (Realtime.freshSession "CA1" 0) rfl (by decide) true⟩

/-- C9: the commit timer is cleared and rescheduled by every inbound
frame, so three frames in quick succession (each arriving before the
previous deadline) produce exactly one firing, at `COMMIT_INTERVAL` after
the last frame; and each firing sends exactly one buffer-commit message to
the engine when the session is connected. -/
theorem C9_timer_coalescing (t1 t2 t3 : Nat)
    (h12 : t2 < t1 + Index.COMMIT_INTERVAL)
    (h23 : t3 < t2 + Index.COMMIT_INTERVAL) :
    Index.commitFireTimes none [t1, t2, t3] =
      [t3 + Index.COMMIT_INTERVAL] ∧
    (∀ rt cs s, mapGet rt.sessions cs = some s → s.isConnected = true →
      Realtime.commitAudioBuffer rt cs true =
        (rt, [Realtime.OutMsg.inputAudioCommit])) := by
  constructor
  · have e1 : ¬ (t1 + Index.COMMIT_INTERVAL ≤ t2) := by omega
    have e2 : ¬ (t2 + Index.COMMIT_INTERVAL ≤ t3) := by omega
    simp [Index.commitFireTimes, e1, e2]
  · intro rt cs s hget hconn
    simp [Realtime.commitAudioBuffer, hget, hconn]

/-- Witness for `C9_timer_coalescing`: frames at 0ms, 100ms and 200ms
yield one commit at 700ms, and the firing sends one commit message on the
connected session `CA1`. -/
theorem C9_timer_coalescing_witness :
    Index.commitFireTimes none [0, 100, 200] =
      [200 + Index.COMMIT_INTERVAL] ∧
    (∀ rt cs s, mapGet rt.sessions cs = some s → s.isConnected = true →
      Realtime.commitAudioBuffer rt cs true =
        (rt, [Realtime.OutMsg.inputAudioCommit])) :=
  C9_timer_coalescing 0 100 200 (by decide) (by decide)

/-- C10: the two audio-path entry points are total at the public
interface.  With no session for the call, or a session that is not
connected, both return with no engine message and a completely unchanged
service state (in particular `audioChunksSent` is untouched); and a
throwing socket send is caught locally — whatever the state, a failed send
also returns normally with no message and no state change. -/
theorem C10_audio_send_totality
    (st : Realtime.RealtimeState) (cs audio : String) :
    (mapGet st.sessions cs = none →
      ∀ ok, Realtime.sendAudioToOpenAI st cs audio ok = (st, []) ∧
        Realtime.commitAudioBuffer st cs ok = (st, [])) ∧
    (∀ s, mapGet st.sessions cs = some s → s.isConnected = false →
      ∀ ok, Realtime.sendAudioToOpenAI st cs audio ok = (st, []) ∧
        Realtime.commitAudioBuffer st cs ok = (st, [])) ∧
    (Realtime.sendAudioToOpenAI st cs audio false = (st, []) ∧
      Realtime.commitAudioBuffer st cs false = (st, [])) := by
  refine ⟨?_, ?_, ?_⟩
  · intro hget ok
    constructor <;> simp [Realtime.sendAudioToOpenAI, Realtime.commitAudioBuffer, hget]
  · intro s hget hconn ok
    constructor <;>
      simp [Realtime.sendAudioToOpenAI, Realtime.commitAudioBuffer, hget, hconn]
  · constructor <;>
      (rcases hget : mapGet st.sessions cs with _ | s <;>
        simp [Realtime.sendAudioToOpenAI, Realtime.commitAudioBuffer, hget])

/-- Witness for `C10_audio_send_totality` on the empty, not-yet-connected
and connected states. -/
theorem C10_audio_send_totality_witness :
    (Realtime.sendAudioToOpenAI Examples.rtEmpty "CA1" "aGVsbG8=" true =
        (Examples.rtEmpty, []) ∧
      Realtime.commitAudioBuffer Examples.rtEmpty "CA1" true =
        (Examples.rtEmpty, [])) ∧
    (Realtime.sendAudioToOpenAI Examples.rtFresh "CA1" "aGVsbG8=" true =
        (Examples.rtFresh, []) ∧
      Realtime.commitAudioBuffer Examples.rtFresh "CA1" true =
        (Examples.rtFresh, [])) ∧
    (Realtime.sendAudioToOpenAI Examples.rtActive "CA1" "aGVsbG8=" false =
        (Examples.rtActive, []) ∧
      Realtime.commitAudioBuffer Examples.rtActive "CA1" false =
        (Examples.rtActive, [])) :=
  ⟨(C10_audio_send_totality Examples.rtEmpty "CA1" "aGVsbG8=").1 rfl true,
   (C10_audio_send_totality Examples.rtFresh "CA1" "aGVsbG8=").2.1
     (Realtime.freshSession "CA1" 0) rfl rfl true,
   (C10_audio_send_totality Examples.rtActive "CA1" "aGVsbG8=").2.2⟩

/-- C8: driving a call's closure twice — the transport `stop` branch
followed by the socket `close` handler — dispatches the Telegram summary
exactly once (the first trigger bumps the send count by one, the second
not at all), and the second trigger is a no-op on the conversation, stream
and session registries (only the external `endConversation` call is
repeated, which the database treats as an update of the same row).  The
final conjunct isolates the `summarySent` flag guard itself. -/
theorem C8_idempotent_closure
    (st : Index.CoordState) (cs : String) (conv : Index.ConvState)
    (sd : Twilio.StreamData) (sess : Realtime.RTSession)
    (hwfc : MapWF st.conversationStates)
    (hwft : MapWF st.twilio.activeStreams)
    (hwfr : MapWF st.realtime.sessions)
    (hconv : mapGet st.conversationStates cs = some conv)
    (hflag : conv.summarySent = false) (hmsgs : conv.messages ≠ [])
    (hstream : mapGet st.twilio.activeStreams cs = some sd)
    (hsession : mapGet st.realtime.sessions cs = some sess) :
    (Index.stopBranch st (some cs)).telegramSends = st.telegramSends + 1 ∧
    (Index.closeHandler (Index.stopBranch st (some cs)) (some cs)).telegramSends =
      (Index.stopBranch st (some cs)).telegramSends ∧
    (Index.closeHandler (Index.stopBranch st (some cs)) (some cs)).conversationStates =
      (Index.stopBranch st (some cs)).conversationStates ∧
    (Index.closeHandler (Index.stopBranch st (some cs)) (some cs)).twilio =
      (Index.stopBranch st (some cs)).twilio ∧
    (Index.closeHandler (Index.stopBranch st (some cs)) (some cs)).realtime =
      (Index.stopBranch st (some cs)).realtime ∧
    (∀ st2 conv2, mapGet st2.conversationStates cs = some conv2 →
      conv2.summarySent = true → Index.sendCallSummaryToTelegram st2 cs = st2) := by
  have hne : conv.messages.isEmpty = false := by
    cases hm : conv.messages with
    | nil => exact absurd hm hmsgs
    | cons a l => simp [hm]
  have h1 : Index.sendCallSummaryToTelegram st cs =
      { st with conversationStates := mapSet st.conversationStates cs { conv with summarySent := true }, telegramSends := st.telegramSends + 1 } := by
    simp [Index.sendCallSummaryToTelegram, hconv, hflag, hne]
  have hfirst : (Index.stopBranch st (some cs)).telegramSends =
      st.telegramSends + 1 := by
    simp [Index.stopBranch, h1]
  have hcnone : mapGet (Index.stopBranch st (some cs)).conversationStates cs = none := by
    simp only [Index.stopBranch, h1]
    exact mapGet_mapDelete_self (MapWF_mapSet cs _ hwfc)
  have htnone : mapGet (Index.stopBranch st (some cs)).twilio.activeStreams cs = none := by
    simp only [Index.stopBranch, h1, Twilio.closeStream, hstream]
    exact mapGet_mapDelete_self hwft
  have hrnone : mapGet (Index.stopBranch st (some cs)).realtime.sessions cs = none := by
    simp only [Index.stopBranch, h1, Realtime.closeSession, hsession]
    exact mapGet_mapDelete_self hwfr
  have hclose : Index.closeHandler (Index.stopBranch st (some cs)) (some cs) =
      { Index.stopBranch st (some cs) with dbEndCalls := (Index.stopBranch st (some cs)).dbEndCalls + 1 } := by
    rw [Index.closeHandler]
    rw [show Index.sendCallSummaryToTelegram (Index.stopBranch st (some cs)) cs = Index.stopBranch st (some cs) by rw [Index.sendCallSummaryToTelegram, hcnone]]
    rw [show Twilio.closeStream (Index.stopBranch st (some cs)).twilio cs = (Index.stopBranch st (some cs)).twilio by rw [Twilio.closeStream, htnone]]
    rw [show Realtime.closeSession (Index.stopBranch st (some cs)).realtime cs = ((Index.stopBranch st (some cs)).realtime, false) by rw [Realtime.closeSession, hrnone]]
    simp [mapDelete_of_none hcnone]
  refine ⟨hfirst, ?_, ?_, ?_, ?_, ?_⟩
  · rw [hclose]
  · rw [hclose]
  · rw [hclose]
  · rw [hclose]
  · intro st2 conv2 hget2 hflag2
    simp [Index.sendCallSummaryToTelegram, hget2, hflag2]

/-- Witness for `C8_idempotent_closure` on the active call `CA1`. -/
theorem C8_idempotent_closure_witness :
    (Index.stopBranch Examples.coordActive (some "CA1")).telegramSends =
      Examples.coordActive.telegramSends + 1 ∧
    (Index.closeHandler (Index.stopBranch Examples.coordActive (some "CA1"))
        (some "CA1")).telegramSends =
      (Index.stopBranch Examples.coordActive (some "CA1")).telegramSends ∧
    (Index.closeHandler (Index.stopBranch Examples.coordActive (some "CA1"))
        (some "CA1")).conversationStates =
      (Index.stopBranch Examples.coordActive (some "CA1")).conversationStates ∧
    (Index.closeHandler (Index.stopBranch Examples.coordActive (some "CA1"))
        (some "CA1")).twilio =
      (Index.stopBranch Examples.coordActive (some "CA1")).twilio ∧
    (Index.closeHandler (Index.stopBranch Examples.coordActive (some "CA1"))
        (some "CA1")).realtime =
      (Index.stopBranch Examples.coordActive (some "CA1")).realtime ∧
    (∀ st2 conv2, mapGet st2.conversationStates "CA1" = some conv2 →
      conv2.summarySent = true →
      Index.sendCallSummaryToTelegram st2 "CA1" = st2) :=
  C8_idempotent_closure Examples.coordActive "CA1" Examples.conv1
    Examples.stream1 Examples.activeSession
    (by unfold MapWF; decide) (by unfold MapWF; decide)
    (by unfold MapWF; decide) rfl rfl (by decide) rfl rfl

end AIAssistant
